import Mathlib

/-!
Verification of the Brevo campaign-automation workflow (`brevo_automation.py`).

The embedding models the orchestrator `AutomationAgent` of
`src/brevo_automation.py`.  Python naive `datetime.datetime` values are
modelled at minute granularity as an `Int` counting minutes since the Unix
epoch 1970-01-01 00:00 (the code only ever sets hour and minute via
`replace(hour=..., minute=...)` and all comparisons in the specification are
at minute granularity).  `timedelta(days=d)` is addition of `d * 1440`
minutes, and `weekday()` is the Python convention Monday = 0 (1970-01-01 was
a Thursday, weekday 3).

The remote Brevo service is an external collaborator; it is modelled by an
environment `Env` of fixed responses plus a remote template store whose
active set is updated by a successful activation PUT.  Every HTTP request the
agent issues is recorded in a trace of `Call`s so that temporal claims
("no campaign-creation call occurs", "activation happens before scheduling")
are statements about that trace.
-/

/-- Minutes in one civil day. -/
def minutesPerDay : Int := 1440

/-- Calendar day index (days since 1970-01-01) of a timestamp in minutes. -/
def dayOf (t : Int) : Int := t / 1440

/-- Minutes since midnight of a timestamp. -/
def todOf (t : Int) : Int := t % 1440

/-- Python `datetime.weekday()`: Monday = 0, ..., Sunday = 6.
1970-01-01 (day 0) was a Thursday, weekday 3. -/
def weekday (t : Int) : Int := (dayOf t + 3) % 7

/-- Python `dt.replace(hour := h, minute := m)` at minute granularity:
keep the calendar day, set the time of day. -/
def replaceHM (t h m : Int) : Int := dayOf t * 1440 + h * 60 + m

/-- Python `dt + datetime.timedelta(days := d)` for naive datetimes. -/
def addDays (t d : Int) : Int := t + d * 1440

/-- Day count of a proleptic-Gregorian civil date since 1970-01-01
(standard civil-from-days algorithm, used to write concrete scenarios). -/
def daysFromCivil (y m d : Int) : Int :=
  let yy : Int := if m ≤ 2 then y - 1 else y
  let era : Int := (if 0 ≤ yy then yy else yy - 399) / 400
  let yoe : Int := yy - era * 400
  let doy : Int := (153 * (m + (if 2 < m then -3 else 9)) + 2) / 5 + d - 1
  let doe : Int := yoe * 365 + yoe / 4 - yoe / 100 + doy
  era * 146097 + doe - 719468

/-- Timestamp (minutes since epoch) of a civil date with hour and minute. -/
def mkCivil (y mo d h mi : Int) : Int := daysFromCivil y mo d * 1440 + h * 60 + mi

/-- Source line 282: `days_until_tuesday = (1 - today.weekday() + 7) % 7`. -/
def daysUntilTuesday (today : Int) : Int := (1 - weekday today + 7) % 7

/-- Source lines 283-284: next Tuesday slot, `replace(hour = 9, minute = 0)`. -/
def nextTuesday (today : Int) : Int :=
  replaceHM (addDays today (daysUntilTuesday today)) 9 0

/-- Source line 287: `days_until_friday = (4 - today.weekday() + 7) % 7`. -/
def daysUntilFriday (today : Int) : Int := (4 - weekday today + 7) % 7

/-- Source lines 288-289: next Friday slot, `replace(hour = 9, minute = 0)`. -/
def nextFriday (today : Int) : Int :=
  replaceHM (addDays today (daysUntilFriday today)) 9 0

/-- Source lines 292-293: post-event slot,
`event_end_date + timedelta(days = 2)` then `replace(hour = 10, minute = 0)`. -/
def postEventSlot (eventEnd : Int) : Int := replaceHM (addDays eventEnd 2) 10 0

/-- One HTTP request issued by the agent. `getTemplate` records, next to the
template id, the boolean that `validate_template_id` derives from the
response (status 200 or not), so the trace shows which existence checks
came back false. -/
inductive Call where
  | createList : Call
  | importContacts (listId : Nat) : Call
  | getTemplate (tid : Nat) (ok : Bool) : Call
  | activateTemplate (tid : Nat) : Call
  | createCampaign (name : String) (tid : Nat) (listId : Nat) (sendDate : Int)
      (senderName senderEmail : String) : Call
deriving DecidableEq, Repr

/-- Responses of the remote Brevo service for one workflow run.
`active0` is the remote template store at the start of the run: `active0 t`
is whether `GET /smtp/templates/t` answers 200 (template exists and is
usable); a successful activation PUT makes later GETs for that id answer
200.  An `Except.error e` carries the text of the exception the Python
client raises (or the transport error).  `campaignResp` gives the provider
answer to the campaign-creation POST, keyed by campaign name; `.ok 0`
models a 201 response whose JSON carries a falsy id (Python then raises
`ValueError("No campaign ID in response")`). -/
structure Env where
  createListResp : Except String Nat
  importResp : Except String Unit
  active0 : Nat → Bool
  activateResp : Nat → Except String Unit
  campaignResp : String → Except String Nat

/-- Run state: the remote template store, the trace of issued requests, and
the `steps` / `actions_taken` lists the orchestrator accumulates. -/
structure St where
  active : Nat → Bool
  trace : List Call
  steps : List String
  actions : List String

/-- Append one issued request to the trace. -/
def logCall (st : St) (c : Call) : St := { st with trace := st.trace ++ [c] }

/-- The observable part of the result dict of an agent action: the
`status` and `message` keys always present, plus the optional `list_id`
and `error_details` keys.  A key the dict does not carry is `none`. -/
structure ActionResult where
  status : String
  message : String
  listId : Option Nat
  errorDetails : Option String
deriving DecidableEq, Repr

/-- Source lines 328-336, `_handle_error`: the error dict
`{"status": "error", "message": message, "error_details": str(error)}`. -/
def handleError (message details : String) : ActionResult :=
  { status := "error", message := message, listId := none,
    errorDetails := some details }

/-- Source lines 124-143, `validate_template_id`: GET the template and
report whether the response status is 200 (any failure counts as false). -/
def validate_template_id (st : St) (templateId : Nat) : Bool × St :=
  (st.active templateId, logCall st (.getTemplate templateId (st.active templateId)))

/-- Source lines 145-166, `activate_template`: PUT status "active"; on a
2xx answer return a success dict and the remote store now has the template
active; otherwise the raised exception is turned into an error dict. -/
def activate_template (env : Env) (st : St) (templateId : Nat) : ActionResult × St :=
  let st1 := logCall st (.activateTemplate templateId)
  match env.activateResp templateId with
  | .ok _ =>
      ({ status := "success",
         message := "Template ID " ++ toString templateId ++ " activated successfully.",
         listId := none, errorDetails := none },
       { st1 with active := fun t => if t = templateId then true else st1.active t })
  | .error txt =>
      (handleError ("Failed to activate template ID " ++ toString templateId)
        ("Failed to activate template: " ++ txt), st1)

/-- Source lines 80-122, `import_contacts`: create the list, then import the
CSV into it; any exception (list creation, file read, or import call - the
latter two folded into `importResp`) yields the error dict
`_handle_error("Contact import failed", e)`, which carries NO "list_id"
key; on success the dict carries `list_id`. -/
def import_contacts (env : Env) (st : St) (listName : String) : ActionResult × St :=
  let st1 := logCall st .createList
  match env.createListResp with
  | .error e => (handleError "Contact import failed" e, st1)
  | .ok listId =>
    let st2 := logCall st1 (.importContacts listId)
    match env.importResp with
    | .error e => (handleError "Contact import failed" e, st2)
    | .ok _ =>
      ({ status := "success",
         message := "Created list \x27" ++ listName ++ "\x27 and imported contacts",
         listId := some listId, errorDetails := none }, st2)

/-- Python dict subscript of the import result at "list_id" (source line
276): when the key is absent the interpreter raises KeyError of that key,
whose str is the repr of the key, i.e. the word list_id wrapped in single
quote characters. -/
def getListId (r : ActionResult) : Except String Nat :=
  match r.listId with
  | some n => .ok n
  | none => .error "\x27list_id\x27"

/-- Source lines 168-243, `schedule_campaign`: re-validate the template id
(a remote GET); if invalid return an error dict; if the send date is not
strictly in the future return an error dict; otherwise POST the campaign
and convert a non-201 status or a falsy id into the error dict of
`_handle_error`. -/
def schedule_campaign (env : Env) (now : Int) (st : St) (campaignName : String)
    (templateId : Nat) (listId : Nat) (sendDate : Int)
    (senderName senderEmail : String) : ActionResult × St :=
  let (ok, st1) := validate_template_id st templateId
  if !ok then
    ({ status := "error",
       message := "Template ID " ++ toString templateId ++ " does not exist.",
       listId := none, errorDetails := none }, st1)
  else if sendDate ≤ now then
    ({ status := "error", message := "Scheduled date must be in the future.",
       listId := none, errorDetails := none }, st1)
  else
    let st2 := logCall st1
      (.createCampaign campaignName templateId listId sendDate senderName senderEmail)
    match env.campaignResp campaignName with
    | .error txt =>
        (handleError ("Failed to schedule campaign \x27" ++ campaignName ++ "\x27")
          ("Failed to create campaign: " ++ txt), st2)
    | .ok cid =>
        if cid = 0 then
          (handleError ("Failed to schedule campaign \x27" ++ campaignName ++ "\x27")
            "No campaign ID in response", st2)
        else
          ({ status := "success",
             message := "Campaign \x27" ++ campaignName ++ "\x27 scheduled successfully",
             listId := none, errorDetails := none }, st2)

/-- The caller-supplied inputs of `execute_workflow`: list name, the three
user-selected template ids, sender info and the event end date. -/
structure WorkflowInput where
  listName : String
  tuesdayTemplate : Nat
  fridayTemplate : Nat
  postEventTemplate : Nat
  senderName : String
  senderEmail : String
  eventEndDate : Int

/-- Source lines 296-300: the fixed three-campaign cadence with its
computed send dates. -/
def campaign_schedules (inp : WorkflowInput) (now : Int) : List (String × Nat × Int) :=
  [("Tuesday Invitation", inp.tuesdayTemplate, nextTuesday now),
   ("Friday Reminder", inp.fridayTemplate, nextFriday now),
   ("Post-Event Survey", inp.postEventTemplate, postEventSlot inp.eventEndDate)]

/-- Source lines 302-307: the pre-flight loop. For each campaign, if the
existence check is false, activate the template; if the activation dict is
not a success, raise (modelled as `Except.error` with the text of the
raised exception). -/
def ensureTemplatesActive (env : Env) :
    St → List (String × Nat × Int) → Except String Unit × St
  | st, [] => (.ok (), st)
  | st, (campaignName, templateId, _) :: rest =>
    let (ok, st1) := validate_template_id st templateId
    if ok then ensureTemplatesActive env st1 rest
    else
      let (ar, st2) := activate_template env st1 templateId
      if ar.status = "success" then ensureTemplatesActive env st2 rest
      else
        (.error ("Failed to activate template for " ++ campaignName ++ ": " ++ ar.message),
         st2)

/-- Source lines 309-319: the scheduling loop. For each campaign append the
step, call `schedule_campaign`, and append its message to `actions_taken`;
no outcome aborts the loop. -/
def scheduleAll (env : Env) (now : Int) (listId : Nat) (senderName senderEmail : String) :
    St → List (String × Nat × Int) → St
  | st, [] => st
  | st, (campaignName, templateId, sendDate) :: rest =>
    let st1 := { st with steps := st.steps ++ ["Schedule " ++ campaignName] }
    let (r, st2) := schedule_campaign env now st1 campaignName templateId listId
      sendDate senderName senderEmail
    scheduleAll env now listId senderName senderEmail
      ({ st2 with actions := st2.actions ++ [r.message] }) rest

/-- The body of the try-block of `execute_workflow` (source lines 271-322):
run the import, record step and message, subscript the returned dict for
"list_id", compute the dates, pre-flight the templates, then schedule all
three campaigns. -/
def tryWorkflow (env : Env) (inp : WorkflowInput) (now : Int) (st : St) :
    Except String Unit × St :=
  let (importResult, st1) := import_contacts env st inp.listName
  let st2 := { st1 with steps := st1.steps ++ ["Import contacts"],
                        actions := st1.actions ++ [importResult.message] }
  match getListId importResult with
  | .error e => (.error e, st2)
  | .ok listId =>
    match ensureTemplatesActive env st2 (campaign_schedules inp now) with
    | (.error e, st3) => (.error e, st3)
    | (.ok _, st3) =>
      (.ok (), scheduleAll env now listId inp.senderName inp.senderEmail st3
        (campaign_schedules inp now))

/-- The results dict returned by `execute_workflow`. -/
structure WorkflowReport where
  taskUnderstanding : String
  steps : List String
  actionsTaken : List String
  result : String
deriving DecidableEq, Repr

/-- The state at the start of a run: the remote store as the environment
has it, no requests issued, empty steps and actions lists. -/
def initialSt (env : Env) : St :=
  { active := env.active0, trace := [], steps := [], actions := [] }

/-- Source lines 245-326, `execute_workflow`: run the try-block; any raised
exception is caught and turned into the result string
`"Workflow failed: " ++ str(e)`; otherwise the result string is the
success marker.  The final `St` is returned next to the report so that
theorems can speak about the trace of issued requests. -/
def execute_workflow (env : Env) (inp : WorkflowInput) (now : Int) :
    WorkflowReport × St :=
  match tryWorkflow env inp now (initialSt env) with
  | (.ok _, st) =>
      ({ taskUnderstanding := "Execute complete email campaign workflow",
         steps := st.steps, actionsTaken := st.actions,
         result := "Complete workflow executed successfully" }, st)
  | (.error e, st) =>
      ({ taskUnderstanding := "Execute complete email campaign workflow",
         steps := st.steps, actionsTaken := st.actions,
         result := "Workflow failed: " ++ e }, st)

/-- Whether a call is a campaign-creation POST. -/
def Call.isCreateCampaign : Call → Bool
  | .createCampaign .. => true
  | _ => false

/-- Whether a call is an activation PUT for the given template. -/
def Call.isActivateFor (tid : Nat) : Call → Bool
  | .activateTemplate t => t = tid
  | _ => false

/-- Whether a call is an activation PUT (for any template). -/
def Call.isActivate : Call → Bool
  | .activateTemplate _ => true
  | _ => false

/-- Whether a call is an existence check for the given template that came
back false. -/
def Call.isFalseCheckFor (tid : Nat) : Call → Bool
  | .getTemplate t ok => t = tid && ok = false
  | _ => false

/-- Number of campaign-creation POSTs in a trace. -/
def countCreate (tr : List Call) : Nat := tr.countP Call.isCreateCampaign

/-- Whether a call belongs to the pre-flight vocabulary: an existence GET or
an activation PUT. -/
def Call.isPre : Call → Bool
  | .getTemplate .. => true
  | .activateTemplate _ => true
  | _ => false

/-- Whether the import step completes without raising: list creation
returned an id and the import POST was accepted. -/
def importSucceeds (env : Env) : Bool :=
  match env.createListResp, env.importResp with
  | .ok _, .ok _ => true
  | _, _ => false

/-- Whether the campaign-creation POST for the named campaign fails (non-201
status, or a 201 whose body has a falsy id). -/
def createFails (env : Env) (name : String) : Bool :=
  match env.campaignResp name with
  | .error _ => true
  | .ok cid => cid = 0

/-- The message `schedule_campaign` returns for a campaign whose template is
valid and whose send date is in the future: the creation outcome message. -/
def schedMessage (env : Env) (name : String) : String :=
  if createFails env name then "Failed to schedule campaign \x27" ++ name ++ "\x27"
  else "Campaign \x27" ++ name ++ "\x27 scheduled successfully"

/-- C2 counterexample input: Tuesday 2024-01-02 at 10:00, past the 09:00 slot. -/
def c2now : Int := mkCivil 2024 1 2 10 0

/-- Concrete workflow input used by witnesses. -/
def inpW : WorkflowInput :=
  { listName := "Event List", tuesdayTemplate := 11, fridayTemplate := 12,
    postEventTemplate := 13, senderName := "Ann", senderEmail := "ann@example.com",
    eventEndDate := mkCivil 2024 6 10 0 0 }

/-- Concrete now used by witnesses: Wednesday 2024-01-03 10:00. -/
def nowW : Int := mkCivil 2024 1 3 10 0

/-- Concrete start state for standalone `schedule_campaign` witnesses. -/
def stW : St := { active := fun _ => true, trace := [], steps := [], actions := [] }

/-- Environment in which every remote call succeeds. -/
def envOkW : Env :=
  { createListResp := .ok 42, importResp := .ok (), active0 := fun _ => true,
    activateResp := fun _ => .ok (), campaignResp := fun _ => .ok 7 }

/-- Environment in which remote list creation fails (so the import step
fails). -/
def envImportFailW : Env :=
  { createListResp := .error "boom", importResp := .ok (), active0 := fun _ => true,
    activateResp := fun _ => .ok (), campaignResp := fun _ => .ok 7 }

/-- Environment in which exactly the Friday campaign-creation POST fails. -/
def envOneFailW : Env :=
  { createListResp := .ok 42, importResp := .ok (), active0 := fun _ => true,
    activateResp := fun _ => .ok (),
    campaignResp := fun n => if n = "Friday Reminder" then .error "quota" else .ok 7 }

/-- Environment in which template 12 is inactive and its activation PUT is
rejected. -/
def envActFailW : Env :=
  { createListResp := .ok 42, importResp := .ok (),
    active0 := fun t => !(t = 12), activateResp := fun _ => .error "forbidden",
    campaignResp := fun _ => .ok 7 }

/-- Environment in which template 12 is initially inactive but its
activation PUT succeeds. -/
def envActOkW : Env :=
  { createListResp := .ok 42, importResp := .ok (),
    active0 := fun t => !(t = 12), activateResp := fun _ => .ok (),
    campaignResp := fun _ => .ok 7 }

/-- State after a pre-flight iteration whose existence check came back
true: only the GET is recorded. -/
def stepOkSt (st : St) (tid : Nat) : St := logCall st (.getTemplate tid true)

/-- State after a pre-flight iteration whose check came back false and whose
activation PUT succeeded: GET and PUT recorded, template now active. -/
def stepActSt (st : St) (tid : Nat) : St :=
  let st1 := logCall (logCall st (.getTemplate tid false)) (.activateTemplate tid)
  { st1 with active := fun t => if t = tid then true else st1.active t }

/-- State after a pre-flight iteration whose check came back false and whose
activation PUT failed: GET and PUT recorded, store unchanged. -/
def stepFailSt (st : St) (tid : Nat) : St :=
  logCall (logCall st (.getTemplate tid false)) (.activateTemplate tid)

/-- The orchestrator state right after the import stage of a run from the
initial state: the import step and message are recorded. -/
def stAfterImport (env : Env) (inp : WorkflowInput) : St :=
  let p := import_contacts env (initialSt env) inp.listName
  { p.2 with steps := p.2.steps ++ ["Import contacts"],
             actions := p.2.actions ++ [p.1.message] }

/-- Sanity: the civil-date conversion places 1970-01-01 at day 0. -/
theorem daysFromCivil_epoch : daysFromCivil 1970 1 1 = 0 := by decide

/-- Sanity: 2024-01-03 was a Wednesday (weekday 2). -/
theorem weekday_jan3_2024 : weekday (mkCivil 2024 1 3 10 0) = 2 := by decide

/-- C2 (counterexample): on Tuesday 2024-01-02 10:00 the computed Tuesday slot
is that same day at 09:00, i.e. strictly in the PAST, refuting "for every now
the Tuesday and Friday slots both fall strictly in the future". -/
theorem c2_counterexample :
    weekday c2now = 1 ∧ nextTuesday c2now < c2now := by decide

/-- C2 (amended): for every now, the Tuesday slot lands on a Tuesday at 09:00
and the Friday slot on a Friday at 09:00; each slot is strictly in the future
iff today is not already the target weekday or the time of day is before
09:00 (when today is the target weekday at or past 09:00 the slot is today
09:00, which is not in the future). -/
theorem c2_amended (now : Int) :
    weekday (nextTuesday now) = 1 ∧ todOf (nextTuesday now) = 540 ∧
    weekday (nextFriday now) = 4 ∧ todOf (nextFriday now) = 540 ∧
    (nextTuesday now > now ↔ (weekday now ≠ 1 ∨ todOf now < 540)) ∧
    (nextFriday now > now ↔ (weekday now ≠ 4 ∨ todOf now < 540)) := by
  unfold nextTuesday nextFriday replaceHM addDays daysUntilTuesday daysUntilFriday
    weekday dayOf todOf
  refine ⟨by omega, by omega, by omega, by omega, by omega, by omega⟩

/-- C8: the post-event slot is always two calendar days after the event end
date, at 10:00, regardless of the weekday of the event end date; also for
event end 2024-06-10 the slot is 2024-06-12 10:00. -/
theorem c8_post_event_slot :
    (∀ eventEnd : Int,
      dayOf (postEventSlot eventEnd) = dayOf eventEnd + 2 ∧
      todOf (postEventSlot eventEnd) = 600) ∧
    postEventSlot (mkCivil 2024 6 10 0 0) = mkCivil 2024 6 12 10 0 := by
  constructor
  · intro e
    unfold postEventSlot replaceHM addDays dayOf todOf
    constructor <;> omega
  · decide

/-- C9: when now is Wednesday 2024-01-03 10:00, the Tuesday slot is
2024-01-09 09:00 and the Friday slot is 2024-01-05 09:00. -/
theorem c9_scenario :
    weekday (mkCivil 2024 1 3 10 0) = 2 ∧
    nextTuesday (mkCivil 2024 1 3 10 0) = mkCivil 2024 1 9 9 0 ∧
    nextFriday (mkCivil 2024 1 3 10 0) = mkCivil 2024 1 5 9 0 := by decide

/-- Appending a call keeps the remote store. -/
@[simp] theorem logCall_active (st : St) (c : Call) : (logCall st c).active = st.active := rfl

/-- Appending a call keeps the steps list. -/
@[simp] theorem logCall_steps (st : St) (c : Call) : (logCall st c).steps = st.steps := rfl

/-- Appending a call keeps the actions list. -/
@[simp] theorem logCall_actions (st : St) (c : Call) : (logCall st c).actions = st.actions := rfl

/-- Appending a call extends the trace on the right. -/
@[simp] theorem logCall_trace (st : St) (c : Call) :
    (logCall st c).trace = st.trace ++ [c] := rfl

/-- When the import step fails, its result dict has the failure message and
no "list_id" key. -/
theorem import_fail_result (env : Env) (st : St) (nm : String)
    (h : importSucceeds env = false) :
    (import_contacts env st nm).1.message = "Contact import failed" ∧
    (import_contacts env st nm).1.listId = none := by
  rcases hc : env.createListResp with e | lid
  · simp [import_contacts, hc, handleError]
  · rcases hi : env.importResp with e2 | u
    · simp [import_contacts, hc, hi, handleError]
    · exfalso; simp [importSucceeds, hc, hi] at h

/-- When the import step succeeds, its result dict carries the created list
id and the success message, and exactly the two import-stage requests were
issued. -/
theorem import_ok_result (env : Env) (st : St) (nm : String)
    (h : importSucceeds env = true) :
    ∃ lid, env.createListResp = Except.ok lid ∧
      (import_contacts env st nm).1 =
        { status := "success",
          message := "Created list \x27" ++ nm ++ "\x27 and imported contacts",
          listId := some lid, errorDetails := none } ∧
      (import_contacts env st nm).2.trace =
        st.trace ++ [Call.createList, Call.importContacts lid] := by
  rcases hc : env.createListResp with e | lid
  · exfalso; simp [importSucceeds, hc] at h
  · rcases hi : env.importResp with e2 | u
    · exfalso; simp [importSucceeds, hc, hi] at h
    · exact ⟨lid, rfl, by simp [import_contacts, hc, hi], by simp [import_contacts, hc, hi, logCall]⟩

/-- The import step never touches the remote store, the steps list or the
actions list, and issues only import-stage requests. -/
theorem import_st_spec (env : Env) (st : St) (nm : String) :
    (import_contacts env st nm).2.active = st.active ∧
    (import_contacts env st nm).2.steps = st.steps ∧
    (import_contacts env st nm).2.actions = st.actions ∧
    ∃ ext, (import_contacts env st nm).2.trace = st.trace ++ ext ∧
      ∀ c ∈ ext, c.isPre = false ∧ c.isCreateCampaign = false := by
  rcases hc : env.createListResp with e | lid
  · refine ⟨by simp [import_contacts, hc], by simp [import_contacts, hc],
      by simp [import_contacts, hc], [Call.createList], by simp [import_contacts, hc], ?_⟩
    simp [Call.isPre, Call.isCreateCampaign]
  · rcases hi : env.importResp with e2 | u
    · refine ⟨by simp [import_contacts, hc, hi], by simp [import_contacts, hc, hi],
        by simp [import_contacts, hc, hi],
        [Call.createList, Call.importContacts lid], by simp [import_contacts, hc, hi], ?_⟩
      simp [Call.isPre, Call.isCreateCampaign]
    · refine ⟨by simp [import_contacts, hc, hi], by simp [import_contacts, hc, hi],
        by simp [import_contacts, hc, hi],
        [Call.createList, Call.importContacts lid], by simp [import_contacts, hc, hi], ?_⟩
      simp [Call.isPre, Call.isCreateCampaign]

/-- C7: `execute_workflow` never lets an exception escape: for every
environment and input it returns a report whose result string is either the
success marker or a failure marker carrying the text of the caught error. -/
theorem c7_no_exception_escapes (env : Env) (inp : WorkflowInput) (now : Int) :
    (execute_workflow env inp now).1.result = "Complete workflow executed successfully" ∨
    ∃ e, (execute_workflow env inp now).1.result = "Workflow failed: " ++ e := by
  unfold execute_workflow
  rcases h : tryWorkflow env inp now (initialSt env) with ⟨e | u, st⟩
  · right; exact ⟨e, rfl⟩
  · left; rfl

/-- C1: whenever the import step fails, the workflow issues zero
campaign-creation requests (indeed no template request either), records only
the import step, and terminates with a failure result. -/
theorem c1_import_failure_blocks_campaigns (env : Env) (inp : WorkflowInput) (now : Int)
    (h : importSucceeds env = false) :
    countCreate (execute_workflow env inp now).2.trace = 0 ∧
    (∀ c ∈ (execute_workflow env inp now).2.trace, c.isPre = false) ∧
    (execute_workflow env inp now).1.steps = ["Import contacts"] ∧
    ∃ e, (execute_workflow env inp now).1.result = "Workflow failed: " ++ e := by
  rcases hc : env.createListResp with e | lid
  · refine ⟨?_, ?_, ?_, "\x27list_id\x27", ?_⟩ <;>
      simp [execute_workflow, tryWorkflow, import_contacts, getListId, handleError,
        initialSt, hc, countCreate, campaign_schedules, logCall, Call.isPre,
        Call.isCreateCampaign]
  · rcases hi : env.importResp with e2 | u
    · refine ⟨?_, ?_, ?_, "\x27list_id\x27", ?_⟩ <;>
        simp [execute_workflow, tryWorkflow, import_contacts, getListId, handleError,
          initialSt, hc, hi, countCreate, campaign_schedules, logCall, Call.isPre,
          Call.isCreateCampaign]
    · exfalso; simp [importSucceeds, hc, hi] at h

/-- C1 witness: in the environment whose list creation fails, the workflow
makes no campaign-creation call, runs no later stage and fails. -/
theorem c1_witness :
    importSucceeds envImportFailW = false ∧
    (countCreate (execute_workflow envImportFailW inpW nowW).2.trace = 0 ∧
     (∀ c ∈ (execute_workflow envImportFailW inpW nowW).2.trace, c.isPre = false) ∧
     (execute_workflow envImportFailW inpW nowW).1.steps = ["Import contacts"] ∧
     ∃ e, (execute_workflow envImportFailW inpW nowW).1.result = "Workflow failed: " ++ e) :=
  ⟨rfl, c1_import_failure_blocks_campaigns envImportFailW inpW nowW rfl⟩

/-- C10: when the import step fails, the workflow aborts through the
KeyError on the missing "list_id" key: the terminal result string is the
text Workflow failed: followed by the quoted key list_id (not the message
of the underlying import error), while the action log holds the import
failure message and the step list holds the import step. -/
theorem c10_keyerror_list_id (env : Env) (inp : WorkflowInput) (now : Int)
    (h : importSucceeds env = false) :
    (execute_workflow env inp now).1.result = "Workflow failed: \x27list_id\x27" ∧
    (execute_workflow env inp now).1.actionsTaken = ["Contact import failed"] ∧
    (execute_workflow env inp now).1.steps = ["Import contacts"] := by
  rcases hc : env.createListResp with e | lid
  · refine ⟨?_, ?_, ?_⟩ <;>
      simp [execute_workflow, tryWorkflow, import_contacts, getListId, handleError,
        initialSt, hc, logCall]
  · rcases hi : env.importResp with e2 | u
    · refine ⟨?_, ?_, ?_⟩ <;>
        simp [execute_workflow, tryWorkflow, import_contacts, getListId, handleError,
          initialSt, hc, hi, logCall]
    · exfalso; simp [importSucceeds, hc, hi] at h

/-- C10 witness: the concrete failing-import run ends with the KeyError
message and the single-entry logs. -/
theorem c10_witness :
    importSucceeds envImportFailW = false ∧
    ((execute_workflow envImportFailW inpW nowW).1.result = "Workflow failed: \x27list_id\x27" ∧
     (execute_workflow envImportFailW inpW nowW).1.actionsTaken = ["Contact import failed"] ∧
     (execute_workflow envImportFailW inpW nowW).1.steps = ["Import contacts"]) :=
  ⟨rfl, c10_keyerror_list_id envImportFailW inpW nowW rfl⟩

/-- `schedule_campaign` never touches the remote store, the steps list or
the actions list, and its requests are never activations; when the template
is valid the recorded existence check is not a false check. -/
theorem schedule_st_spec (env : Env) (now : Int) (st : St) (nm : String)
    (tid lid : Nat) (d : Int) (sn se : String) :
    (schedule_campaign env now st nm tid lid d sn se).2.active = st.active ∧
    (schedule_campaign env now st nm tid lid d sn se).2.steps = st.steps ∧
    (schedule_campaign env now st nm tid lid d sn se).2.actions = st.actions ∧
    ∃ ext, (schedule_campaign env now st nm tid lid d sn se).2.trace = st.trace ++ ext ∧
      (∀ c ∈ ext, c.isActivate = false) ∧
      (st.active tid = true → ∀ c ∈ ext, ∀ u, c.isFalseCheckFor u = false) := by
  unfold schedule_campaign validate_template_id
  cases ha : st.active tid
  · refine ⟨by simp, by simp, by simp, [Call.getTemplate tid false], by simp [logCall], ?_, ?_⟩
    · simp [Call.isActivate]
    · intro hcontra; simp [ha] at hcontra
  · by_cases hd : d ≤ now
    · refine ⟨by simp [hd], by simp [hd], by simp [hd],
        [Call.getTemplate tid true], by simp [hd, logCall], ?_, ?_⟩
      · simp [Call.isActivate]
      · intro _; simp [Call.isFalseCheckFor]
    · rcases hc : env.campaignResp nm with e | cid
      · refine ⟨by simp [hd, hc, handleError], by simp [hd, hc, handleError],
          by simp [hd, hc, handleError],
          [Call.getTemplate tid true, Call.createCampaign nm tid lid d sn se],
          by simp [hd, hc, logCall], ?_, ?_⟩
        · simp [Call.isActivate]
        · intro _; simp [Call.isFalseCheckFor]
      · by_cases h0 : cid = 0
        · refine ⟨by simp [hd, hc, h0, handleError], by simp [hd, hc, h0, handleError],
            by simp [hd, hc, h0, handleError],
            [Call.getTemplate tid true, Call.createCampaign nm tid lid d sn se],
            by simp [hd, hc, h0, logCall], ?_, ?_⟩
          · simp [Call.isActivate]
          · intro _; simp [Call.isFalseCheckFor]
        · refine ⟨by simp [hd, hc, h0], by simp [hd, hc, h0], by simp [hd, hc, h0],
            [Call.getTemplate tid true, Call.createCampaign nm tid lid d sn se],
            by simp [hd, hc, h0, logCall], ?_, ?_⟩
          · simp [Call.isActivate]
          · intro _; simp [Call.isFalseCheckFor]

/-- When the template is valid and the date is in the future,
`schedule_campaign` issues exactly one campaign-creation POST and its
message is the creation outcome message. -/
theorem schedule_ok_spec (env : Env) (now : Int) (st : St) (nm : String)
    (tid lid : Nat) (d : Int) (sn se : String)
    (h1 : st.active tid = true) (h2 : now < d) :
    (schedule_campaign env now st nm tid lid d sn se).1.message = schedMessage env nm ∧
    countCreate (schedule_campaign env now st nm tid lid d sn se).2.trace
      = countCreate st.trace + 1 := by
  have hd : ¬ (d ≤ now) := by omega
  unfold schedule_campaign validate_template_id
  rcases hc : env.campaignResp nm with e | cid
  · constructor <;>
      simp [h1, hd, hc, handleError, schedMessage, createFails, logCall, countCreate,
        List.countP_append, List.countP_cons, Call.isCreateCampaign]
  · by_cases h0 : cid = 0 <;> constructor <;>
      simp [h1, hd, hc, h0, handleError, schedMessage, createFails, logCall, countCreate,
        List.countP_append, List.countP_cons, Call.isCreateCampaign]

/-- C6 (amended): a `schedule_campaign` call whose send date is at or before
now returns an error result and issues no campaign-creation request; it
does, however, first issue one remote template-validation GET, which is the
only request made. -/
theorem c6_amended_past_date_rejected (env : Env) (now : Int) (st : St) (nm : String)
    (tid lid : Nat) (d : Int) (sn se : String) (h : d ≤ now) :
    (schedule_campaign env now st nm tid lid d sn se).1.status = "error" ∧
    (schedule_campaign env now st nm tid lid d sn se).2.trace
      = st.trace ++ [Call.getTemplate tid (st.active tid)] ∧
    countCreate (schedule_campaign env now st nm tid lid d sn se).2.trace
      = countCreate st.trace := by
  unfold schedule_campaign validate_template_id
  cases ha : st.active tid
  · refine ⟨by simp, by simp [logCall], ?_⟩
    simp [logCall, countCreate, List.countP_append, List.countP_cons, Call.isCreateCampaign]
  · refine ⟨by simp [h], by simp [h, logCall], ?_⟩
    simp [h, logCall, countCreate, List.countP_append, List.countP_cons, Call.isCreateCampaign]

/-- C6 witness: scheduling "Friday Reminder" for Tuesday 2024-01-02 09:00
when now is Wednesday 2024-01-03 10:00 is rejected with an error result and
only the validation GET on the trace. -/
theorem c6_witness :
    (mkCivil 2024 1 2 9 0 ≤ nowW) ∧
    ((schedule_campaign envOkW nowW stW "Friday Reminder" 12 42 (mkCivil 2024 1 2 9 0)
        "Ann" "ann@example.com").1.status = "error" ∧
     (schedule_campaign envOkW nowW stW "Friday Reminder" 12 42 (mkCivil 2024 1 2 9 0)
        "Ann" "ann@example.com").2.trace
       = stW.trace ++ [Call.getTemplate 12 (stW.active 12)] ∧
     countCreate (schedule_campaign envOkW nowW stW "Friday Reminder" 12 42
        (mkCivil 2024 1 2 9 0) "Ann" "ann@example.com").2.trace
       = countCreate stW.trace) :=
  ⟨by decide, c6_amended_past_date_rejected envOkW nowW stW "Friday Reminder" 12 42
    (mkCivil 2024 1 2 9 0) "Ann" "ann@example.com" (by decide)⟩

/-- C6 (counterexample): the claimed "without any remote call being made" is
false: a past-date `schedule_campaign` still issues the template-validation
GET before the local date check, as this concrete rejected call shows. -/
theorem c6_counterexample :
    (mkCivil 2024 1 2 9 0 ≤ nowW) ∧
    (schedule_campaign envOkW nowW stW "Tuesday Invitation" 11 42 (mkCivil 2024 1 2 9 0)
        "Ann" "ann@example.com").1.status = "error" ∧
    (schedule_campaign envOkW nowW stW "Tuesday Invitation" 11 42 (mkCivil 2024 1 2 9 0)
        "Ann" "ann@example.com").2.trace = [Call.getTemplate 11 true] := by decide

/-- The pre-flight loop on an empty campaign list does nothing. -/
theorem ensure_nil (env : Env) (st : St) :
    ensureTemplatesActive env st [] = (.ok (), st) := rfl

/-- Pre-flight step, check true: only the GET is issued and the loop goes on. -/
theorem ensure_cons_active (env : Env) (st : St) (nm : String) (tid : Nat) (d : Int)
    (tl : List (String × Nat × Int)) (ha : st.active tid = true) :
    ensureTemplatesActive env st ((nm, tid, d) :: tl)
      = ensureTemplatesActive env (stepOkSt st tid) tl := by
  simp [ensureTemplatesActive, validate_template_id, ha, stepOkSt]

/-- Pre-flight step, check false and activation accepted: GET and PUT are
issued, the template becomes active, and the loop goes on. -/
theorem ensure_cons_activate (env : Env) (st : St) (nm : String) (tid : Nat) (d : Int)
    (tl : List (String × Nat × Int)) (u : Unit) (ha : st.active tid = false)
    (hr : env.activateResp tid = .ok u) :
    ensureTemplatesActive env st ((nm, tid, d) :: tl)
      = ensureTemplatesActive env (stepActSt st tid) tl := by
  simp [ensureTemplatesActive, validate_template_id, ha, activate_template, hr,
    stepActSt, logCall]

/-- Pre-flight step, check false and activation rejected: GET and PUT are
issued and the loop aborts with the exception text naming the campaign. -/
theorem ensure_cons_fail (env : Env) (st : St) (nm : String) (tid : Nat) (d : Int)
    (tl : List (String × Nat × Int)) (err : String) (ha : st.active tid = false)
    (hr : env.activateResp tid = .error err) :
    ensureTemplatesActive env st ((nm, tid, d) :: tl)
      = (.error ("Failed to activate template for " ++ nm ++ ": "
          ++ ("Failed to activate template ID " ++ toString tid)), stepFailSt st tid) := by
  simp [ensureTemplatesActive, validate_template_id, ha, activate_template, hr,
    handleError, stepFailSt, logCall]

/-- The pre-flight loop only issues GETs and activation PUTs, never touches
the steps or actions lists, pairs every false existence check with exactly
one activation PUT for that template, and never deactivates a template. -/
theorem ensure_spec (env : Env) (l : List (String × Nat × Int)) :
    ∀ st : St, ∃ ext,
      (ensureTemplatesActive env st l).2.trace = st.trace ++ ext ∧
      (ensureTemplatesActive env st l).2.steps = st.steps ∧
      (ensureTemplatesActive env st l).2.actions = st.actions ∧
      (∀ c ∈ ext, c.isPre = true) ∧
      (∀ u, ext.countP (Call.isFalseCheckFor u) = ext.countP (Call.isActivateFor u)) ∧
      (∀ u, st.active u = true → (ensureTemplatesActive env st l).2.active u = true) := by
  induction l with
  | nil =>
    intro st
    exact ⟨[], by simp [ensure_nil], by simp [ensure_nil], by simp [ensure_nil],
      by simp, by simp, by simp [ensure_nil]⟩
  | cons hd tl ih =>
    intro st
    obtain ⟨nm, tid, d⟩ := hd
    cases ha : st.active tid
    case true =>
      rw [ensure_cons_active env st nm tid d tl ha]
      obtain ⟨ext, h1, h2, h3, h4, h5, h6⟩ := ih (stepOkSt st tid)
      refine ⟨Call.getTemplate tid true :: ext, ?_, ?_, ?_, ?_, ?_, ?_⟩
      · rw [h1]; simp [stepOkSt, logCall]
      · rw [h2]; simp [stepOkSt, logCall]
      · rw [h3]; simp [stepOkSt, logCall]
      · intro c hc
        rcases List.mem_cons.mp hc with rfl | h
        · rfl
        · exact h4 c h
      · intro u
        simp [List.countP_cons, Call.isFalseCheckFor, Call.isActivateFor, h5 u]
      · intro u hu
        exact h6 u (by simp [stepOkSt, logCall, hu])
    case false =>
      rcases hr : env.activateResp tid with err | u
      · rw [ensure_cons_fail env st nm tid d tl err ha hr]
        refine ⟨[Call.getTemplate tid false, Call.activateTemplate tid],
          ?_, ?_, ?_, ?_, ?_, ?_⟩
        · simp [stepFailSt, logCall]
        · simp [stepFailSt, logCall]
        · simp [stepFailSt, logCall]
        · intro c hc
          rcases List.mem_cons.mp hc with rfl | hc
          · rfl
          · rcases List.mem_cons.mp hc with rfl | hc
            · rfl
            · simp at hc
        · intro u
          by_cases h : tid = u <;>
            simp [List.countP_cons, Call.isFalseCheckFor, Call.isActivateFor, h]
        · intro u hu
          simp [stepFailSt, logCall, hu]
      · rw [ensure_cons_activate env st nm tid d tl u ha hr]
        obtain ⟨ext, h1, h2, h3, h4, h5, h6⟩ := ih (stepActSt st tid)
        refine ⟨Call.getTemplate tid false :: Call.activateTemplate tid :: ext,
          ?_, ?_, ?_, ?_, ?_, ?_⟩
        · rw [h1]; simp [stepActSt, logCall]
        · rw [h2]; simp [stepActSt, logCall]
        · rw [h3]; simp [stepActSt, logCall]
        · intro c hc
          rcases List.mem_cons.mp hc with rfl | hc
          · rfl
          · rcases List.mem_cons.mp hc with rfl | hc
            · rfl
            · exact h4 c hc
        · intro u'
          by_cases h : tid = u' <;>
            simp [List.countP_cons, Call.isFalseCheckFor, Call.isActivateFor, h, h5 u']
        · intro u' hu'
          refine h6 u' ?_
          by_cases h : u' = tid <;> simp [stepActSt, logCall, h, hu']

/-- When the pre-flight loop completes without raising, every template of
the processed campaigns is active in the resulting store. -/
theorem ensure_ok_active (env : Env) (l : List (String × Nat × Int)) :
    ∀ st : St, (ensureTemplatesActive env st l).1 = .ok () →
      ∀ nm tid d, (nm, tid, d) ∈ l →
        (ensureTemplatesActive env st l).2.active tid = true := by
  induction l with
  | nil => intro st _ nm tid d h; simp at h
  | cons hd tl ih =>
    intro st hok nm tid d hmem
    obtain ⟨nm0, tid0, d0⟩ := hd
    cases ha : st.active tid0
    case true =>
      rw [ensure_cons_active env st nm0 tid0 d0 tl ha] at hok ⊢
      rcases List.mem_cons.mp hmem with heq | htl
      · obtain ⟨ext, _, _, _, _, _, hmono⟩ := ensure_spec env tl (stepOkSt st tid0)
        have htid : tid = tid0 := by
          simp at heq; exact heq.2.1
        subst htid
        exact hmono tid (by simp [stepOkSt, logCall, ha])
      · exact ih (stepOkSt st tid0) hok nm tid d htl
    case false =>
      rcases hr : env.activateResp tid0 with err | u
      · rw [ensure_cons_fail env st nm0 tid0 d0 tl err ha hr] at hok
        exact absurd hok (by simp)
      · rw [ensure_cons_activate env st nm0 tid0 d0 tl u ha hr] at hok ⊢
        rcases List.mem_cons.mp hmem with heq | htl
        · obtain ⟨ext, _, _, _, _, _, hmono⟩ := ensure_spec env tl (stepActSt st tid0)
          have htid : tid = tid0 := by
            simp at heq; exact heq.2.1
          subst htid
          exact hmono tid (by simp [stepActSt, logCall])
        · exact ih (stepActSt st tid0) hok nm tid d htl

/-- When the trace of a pre-flight run carries an activation PUT for a
template whose activation the provider rejects, the loop aborts with the
exception text naming one of the campaigns using that template. -/
theorem ensure_abort (env : Env) (l : List (String × Nat × Int)) :
    ∀ (st : St) (t : Nat) (err : String), env.activateResp t = .error err →
      Call.activateTemplate t ∈ (ensureTemplatesActive env st l).2.trace →
      Call.activateTemplate t ∉ st.trace →
      ∃ nm d, (nm, t, d) ∈ l ∧
        (ensureTemplatesActive env st l).1
          = .error ("Failed to activate template for " ++ nm ++ ": "
              ++ ("Failed to activate template ID " ++ toString t)) := by
  induction l with
  | nil =>
    intro st t err _ hmem hnot
    rw [ensure_nil] at hmem
    exact absurd hmem hnot
  | cons hd tl ih =>
    intro st t err hr hmem hnot
    obtain ⟨nm0, tid0, d0⟩ := hd
    cases ha : st.active tid0
    case true =>
      rw [ensure_cons_active env st nm0 tid0 d0 tl ha] at hmem ⊢
      have hnot' : Call.activateTemplate t ∉ (stepOkSt st tid0).trace := by
        simp [stepOkSt, logCall]
        exact hnot
      obtain ⟨nm, d, h1, h2⟩ := ih (stepOkSt st tid0) t err hr hmem hnot'
      exact ⟨nm, d, List.mem_cons_of_mem _ h1, h2⟩
    case false =>
      rcases hr0 : env.activateResp tid0 with err0 | u
      · rw [ensure_cons_fail env st nm0 tid0 d0 tl err0 ha hr0] at hmem ⊢
        have ht : t = tid0 := by
          simp [stepFailSt, logCall] at hmem
          rcases hmem with h | h
          · exact absurd h hnot
          · exact h
        subst ht
        exact ⟨nm0, d0, List.mem_cons_self _ _, rfl⟩
      · rw [ensure_cons_activate env st nm0 tid0 d0 tl u ha hr0] at hmem ⊢
        have hne : t ≠ tid0 := by
          intro h
          subst h
          rw [hr] at hr0
          exact Except.noConfusion hr0
        have hnot' : Call.activateTemplate t ∉ (stepActSt st tid0).trace := by
          simp [stepActSt, logCall, hne]
          exact hnot
        obtain ⟨nm, d, h1, h2⟩ := ih (stepActSt st tid0) t err hr hmem hnot'
        exact ⟨nm, d, List.mem_cons_of_mem _ h1, h2⟩

/-- The outcome of the pre-flight loop depends only on the remote store, not
on the trace or the logs. -/
theorem ensure_congr (env : Env) (l : List (String × Nat × Int)) :
    ∀ st st' : St, st.active = st'.active →
      (ensureTemplatesActive env st l).1 = (ensureTemplatesActive env st' l).1 := by
  induction l with
  | nil => intro st st' _; rfl
  | cons hd tl ih =>
    intro st st' h
    obtain ⟨nm0, tid0, d0⟩ := hd
    have hsame : st.active tid0 = st'.active tid0 := by rw [h]
    cases ha : st.active tid0
    case true =>
      have ha' : st'.active tid0 = true := hsame ▸ ha
      rw [ensure_cons_active env st nm0 tid0 d0 tl ha,
        ensure_cons_active env st' nm0 tid0 d0 tl ha']
      exact ih _ _ (by simp [stepOkSt, logCall, h])
    case false =>
      have ha' : st'.active tid0 = false := hsame ▸ ha
      rcases hr : env.activateResp tid0 with err | u
      · rw [ensure_cons_fail env st nm0 tid0 d0 tl err ha hr,
          ensure_cons_fail env st' nm0 tid0 d0 tl err ha' hr]
      · rw [ensure_cons_activate env st nm0 tid0 d0 tl u ha hr,
          ensure_cons_activate env st' nm0 tid0 d0 tl u ha' hr]
        refine ih _ _ ?_
        funext u'
        simp [stepActSt, logCall, h]

/-- The scheduling loop on an empty list does nothing. -/
theorem scheduleAll_nil (env : Env) (now : Int) (lid : Nat) (sn se : String) (st : St) :
    scheduleAll env now lid sn se st [] = st := rfl

/-- The scheduling loop never issues an activation PUT, and when every
processed template is active it never records a false existence check; it
leaves the remote store unchanged. -/
theorem scheduleAll_spec (env : Env) (now : Int) (lid : Nat) (sn se : String)
    (l : List (String × Nat × Int)) :
    ∀ st : St, (∀ nm tid d, (nm, tid, d) ∈ l → st.active tid = true) →
      ∃ ext, (scheduleAll env now lid sn se st l).trace = st.trace ++ ext ∧
        (∀ c ∈ ext, c.isActivate = false ∧ ∀ u, c.isFalseCheckFor u = false) ∧
        (scheduleAll env now lid sn se st l).active = st.active := by
  induction l with
  | nil => intro st _; exact ⟨[], by simp [scheduleAll_nil], by simp, rfl⟩
  | cons hd tl ih =>
    intro st h
    obtain ⟨nm0, tid0, d0⟩ := hd
    have hact0 : st.active tid0 = true := h nm0 tid0 d0 (List.mem_cons_self _ _)
    simp only [scheduleAll]
    rcases hsc : schedule_campaign env now
        { st with steps := st.steps ++ ["Schedule " ++ nm0] } nm0 tid0 lid d0 sn se
      with ⟨r, st2⟩
    have hspec := schedule_st_spec env now
      { st with steps := st.steps ++ ["Schedule " ++ nm0] } nm0 tid0 lid d0 sn se
    rw [hsc] at hspec
    obtain ⟨hA, hS, hAc, ext0, hT, hNoAct, hNoFalse⟩ := hspec
    simp at hA hAc hT hNoFalse
    obtain ⟨ext, h1, h2, h3⟩ := ih { st2 with actions := st2.actions ++ [r.message] }
      (fun nm tid d hm => by
        have hx := h nm tid d (List.mem_cons_of_mem _ hm)
        simpa [hA] using hx)
    refine ⟨ext0 ++ ext, ?_, ?_, ?_⟩
    · rw [h1]
      simp [hT, List.append_assoc]
    · intro c hc
      rcases List.mem_append.mp hc with hc | hc
      · exact ⟨hNoAct c hc, hNoFalse hact0 c hc⟩
      · exact h2 c hc
    · rw [h3]; simp [hA]

/-- When every processed template is active and every send date is in the
future, the scheduling loop appends one step and one creation-outcome
message per campaign and issues exactly one creation POST per campaign. -/
theorem scheduleAll_msgs (env : Env) (now : Int) (lid : Nat) (sn se : String)
    (l : List (String × Nat × Int)) :
    ∀ st : St, (∀ nm tid d, (nm, tid, d) ∈ l → st.active tid = true) →
      (∀ nm tid d, (nm, tid, d) ∈ l → now < d) →
      (scheduleAll env now lid sn se st l).actions
        = st.actions ++ l.map (fun c => schedMessage env c.1) ∧
      (scheduleAll env now lid sn se st l).steps
        = st.steps ++ l.map (fun c => "Schedule " ++ c.1) ∧
      countCreate (scheduleAll env now lid sn se st l).trace
        = countCreate st.trace + l.length := by
  induction l with
  | nil => intro st _ _; simp [scheduleAll_nil]
  | cons hd tl ih =>
    intro st h hf
    obtain ⟨nm0, tid0, d0⟩ := hd
    have hact0 : st.active tid0 = true := h nm0 tid0 d0 (List.mem_cons_self _ _)
    have hfut0 : now < d0 := hf nm0 tid0 d0 (List.mem_cons_self _ _)
    simp only [scheduleAll]
    rcases hsc : schedule_campaign env now
        { st with steps := st.steps ++ ["Schedule " ++ nm0] } nm0 tid0 lid d0 sn se
      with ⟨r, st2⟩
    have hspec := schedule_st_spec env now
      { st with steps := st.steps ++ ["Schedule " ++ nm0] } nm0 tid0 lid d0 sn se
    have hok := schedule_ok_spec env now
      { st with steps := st.steps ++ ["Schedule " ++ nm0] } nm0 tid0 lid d0 sn se
      hact0 hfut0
    rw [hsc] at hspec hok
    obtain ⟨hA, hS, hAc, ext0, hT, _, _⟩ := hspec
    obtain ⟨hMsg, hCnt⟩ := hok
    simp at hA hS hAc hT hMsg hCnt
    obtain ⟨ih1, ih2, ih3⟩ := ih { st2 with actions := st2.actions ++ [r.message] }
      (fun nm tid d hm => by
        have hx := h nm tid d (List.mem_cons_of_mem _ hm)
        simpa [hA] using hx)
      (fun nm tid d hm => hf nm tid d (List.mem_cons_of_mem _ hm))
    refine ⟨?_, ?_, ?_⟩
    · rw [ih1]
      simp [hAc, hMsg]
    · rw [ih2]
      simp [hS]
    · rw [ih3]
      have hsame : countCreate ({ st2 with actions := st2.actions ++ [r.message] } : St).trace
          = countCreate st2.trace := rfl
      rw [hsame, hCnt]
      simp
      omega

/-- Unfolding of the try-block from the initial state, with the post-import
state named. -/
theorem tryWorkflow_init_unfold (env : Env) (inp : WorkflowInput) (now : Int) :
    tryWorkflow env inp now (initialSt env) =
      (match getListId (import_contacts env (initialSt env) inp.listName).1 with
       | .error e => (.error e, stAfterImport env inp)
       | .ok listId =>
         match ensureTemplatesActive env (stAfterImport env inp)
             (campaign_schedules inp now) with
         | (.error e, st3) => (.error e, st3)
         | (.ok _, st3) =>
           (.ok (), scheduleAll env now listId inp.senderName inp.senderEmail st3
             (campaign_schedules inp now))) := rfl

/-- The post-import state has the environment's template store. -/
theorem stAfterImport_active (env : Env) (inp : WorkflowInput) :
    (stAfterImport env inp).active = env.active0 := by
  have h := (import_st_spec env (initialSt env) inp.listName).1
  simpa [stAfterImport, initialSt] using h

/-- When the import succeeds, the post-import state has the single import
step recorded, the import success message as only action, and the two
requests of the import stage as its trace. -/
theorem stAfterImport_ok (env : Env) (inp : WorkflowInput)
    (h1 : importSucceeds env = true) :
    (stAfterImport env inp).steps = ["Import contacts"] ∧
    (stAfterImport env inp).actions
      = ["Created list \x27" ++ inp.listName ++ "\x27 and imported contacts"] ∧
    countCreate (stAfterImport env inp).trace = 0 := by
  obtain ⟨lid0, hcl, hres, htr⟩ := import_ok_result env (initialSt env) inp.listName h1
  obtain ⟨hact, hsteps, hactions, ext, hextr, hextp⟩ :=
    import_st_spec env (initialSt env) inp.listName
  refine ⟨?_, ?_, ?_⟩
  · simp only [stAfterImport]
    rw [hsteps]
    simp [initialSt]
  · simp only [stAfterImport]
    rw [hactions, hres]
    simp [initialSt]
  · simp only [stAfterImport]
    rw [htr]
    simp [initialSt, countCreate, List.countP_cons, Call.isCreateCampaign]

/-- When the import step and the pre-flight both succeed, the try-block
raises nothing. -/
theorem tryWorkflow_ok (env : Env) (inp : WorkflowInput) (now : Int)
    (h1 : importSucceeds env = true)
    (h2 : (ensureTemplatesActive env (initialSt env) (campaign_schedules inp now)).1
      = Except.ok ()) :
    (tryWorkflow env inp now (initialSt env)).1 = Except.ok () := by
  obtain ⟨lid, hcl, hres, htr⟩ := import_ok_result env (initialSt env) inp.listName h1
  rw [tryWorkflow_init_unfold]
  simp only [hres, getListId]
  rcases hE : ensureTemplatesActive env (stAfterImport env inp)
      (campaign_schedules inp now) with ⟨er | u, st3⟩
  · exfalso
    have hc := ensure_congr env (campaign_schedules inp now) (stAfterImport env inp)
      (initialSt env) (by simp [stAfterImport_active, initialSt])
    rw [hE, h2] at hc
    exact absurd hc (by simp)
  · simp

/-- C5: whenever the import stage and the pre-flight stage complete without
raising, the terminal status is the success marker - whatever the three
campaign-creation outcomes were (the environment's `campaignResp` is
arbitrary here), so per-campaign scheduling errors never reach the terminal
status field. -/
theorem c5_partial_failures_not_in_status (env : Env) (inp : WorkflowInput) (now : Int)
    (h1 : importSucceeds env = true)
    (h2 : (ensureTemplatesActive env (initialSt env) (campaign_schedules inp now)).1
      = Except.ok ()) :
    (execute_workflow env inp now).1.result = "Complete workflow executed successfully" := by
  have hok := tryWorkflow_ok env inp now h1 h2
  unfold execute_workflow
  rcases hT : tryWorkflow env inp now (initialSt env) with ⟨er | u, st⟩
  · rw [hT] at hok; exact absurd hok (by simp)
  · rfl

/-- C5 witness: with the Friday creation POST rejected, the run still ends
with the success marker. -/
theorem c5_witness :
    importSucceeds envOneFailW = true ∧
    (ensureTemplatesActive envOneFailW (initialSt envOneFailW)
      (campaign_schedules inpW nowW)).1 = Except.ok () ∧
    createFails envOneFailW "Friday Reminder" = true ∧
    (execute_workflow envOneFailW inpW nowW).1.result
      = "Complete workflow executed successfully" :=
  ⟨rfl, rfl, by decide, c5_partial_failures_not_in_status envOneFailW inpW nowW rfl rfl⟩

/-- When every processed template is already active the pre-flight loop
succeeds without changing the store, the logs, or the creation count. -/
theorem ensure_all_active (env : Env) (l : List (String × Nat × Int)) :
    ∀ st : St, (∀ nm tid d, (nm, tid, d) ∈ l → st.active tid = true) →
      (ensureTemplatesActive env st l).1 = Except.ok () ∧
      (ensureTemplatesActive env st l).2.active = st.active ∧
      (ensureTemplatesActive env st l).2.actions = st.actions ∧
      (ensureTemplatesActive env st l).2.steps = st.steps ∧
      countCreate (ensureTemplatesActive env st l).2.trace = countCreate st.trace := by
  induction l with
  | nil => intro st _; simp [ensure_nil]
  | cons hd tl ih =>
    intro st h
    obtain ⟨nm0, tid0, d0⟩ := hd
    have ha : st.active tid0 = true := h nm0 tid0 d0 (List.mem_cons_self _ _)
    rw [ensure_cons_active env st nm0 tid0 d0 tl ha]
    obtain ⟨ih1, ih2, ih3, ih4, ih5⟩ := ih (stepOkSt st tid0)
      (fun nm tid d hm => by
        have hx := h nm tid d (List.mem_cons_of_mem _ hm)
        simpa [stepOkSt, logCall] using hx)
    refine ⟨ih1, ?_, ?_, ?_, ?_⟩
    · rw [ih2]; simp [stepOkSt, logCall]
    · rw [ih3]; simp [stepOkSt, logCall]
    · rw [ih4]; simp [stepOkSt, logCall]
    · rw [ih5]
      simp [stepOkSt, logCall, countCreate, List.countP_append, List.countP_cons,
        Call.isCreateCampaign]

/-- Characterization of a run in which the import succeeds, all three
selected templates are active, and all three computed send dates are in the
future: the action log is the import message followed by the three
creation-outcome messages, the step list records the import and the three
scheduling steps, and exactly three creation POSTs are issued. -/
theorem workflow_ok_run (env : Env) (inp : WorkflowInput) (now : Int) (lid : Nat)
    (hcl : env.createListResp = Except.ok lid)
    (him : env.importResp = Except.ok ())
    (hta : env.active0 inp.tuesdayTemplate = true)
    (hfa : env.active0 inp.fridayTemplate = true)
    (hpa : env.active0 inp.postEventTemplate = true)
    (htd : now < nextTuesday now)
    (hfd : now < nextFriday now)
    (hpd : now < postEventSlot inp.eventEndDate) :
    (execute_workflow env inp now).1.actionsTaken
      = ["Created list \x27" ++ inp.listName ++ "\x27 and imported contacts",
         schedMessage env "Tuesday Invitation", schedMessage env "Friday Reminder",
         schedMessage env "Post-Event Survey"] ∧
    (execute_workflow env inp now).1.steps
      = ["Import contacts", "Schedule Tuesday Invitation", "Schedule Friday Reminder",
         "Schedule Post-Event Survey"] ∧
    countCreate (execute_workflow env inp now).2.trace = 3 := by
  have h1 : importSucceeds env = true := by simp [importSucceeds, hcl, him]
  obtain ⟨lid0, hcl0, hres, htr⟩ := import_ok_result env (initialSt env) inp.listName h1
  have hlid : lid0 = lid := by
    rw [hcl] at hcl0
    exact (Except.ok.injEq _ _ ▸ hcl0.symm)
  subst hlid
  obtain ⟨hsteps0, hactions0, hcnt0⟩ := stAfterImport_ok env inp h1
  have hactiveAll : ∀ nm tid d, (nm, tid, d) ∈ campaign_schedules inp now →
      (stAfterImport env inp).active tid = true := by
    intro nm tid d hm
    rw [stAfterImport_active]
    simp [campaign_schedules] at hm
    rcases hm with ⟨_, h, _⟩ | ⟨_, h, _⟩ | ⟨_, h, _⟩ <;> rw [h]
    · exact hta
    · exact hfa
    · exact hpa
  obtain ⟨hEok, hEact, hEactions, hEsteps, hEcnt⟩ :=
    ensure_all_active env (campaign_schedules inp now) (stAfterImport env inp) hactiveAll
  unfold execute_workflow
  rw [tryWorkflow_init_unfold]
  simp only [hres, getListId]
  rcases hE : ensureTemplatesActive env (stAfterImport env inp)
      (campaign_schedules inp now) with ⟨er | u, st3⟩
  · exfalso
    rw [hE] at hEok
    exact absurd hEok (by simp)
  · rw [hE] at hEact hEactions hEsteps hEcnt
    simp at hEact hEactions hEsteps hEcnt
    have hactiveAll3 : ∀ nm tid d, (nm, tid, d) ∈ campaign_schedules inp now →
        st3.active tid = true := by
      intro nm tid d hm
      rw [hEact]
      exact hactiveAll nm tid d hm
    have hfutAll : ∀ nm tid d, (nm, tid, d) ∈ campaign_schedules inp now → now < d := by
      intro nm tid d hm
      simp [campaign_schedules] at hm
      rcases hm with ⟨_, _, h⟩ | ⟨_, _, h⟩ | ⟨_, _, h⟩ <;> rw [h]
      · exact htd
      · exact hfd
      · exact hpd
    obtain ⟨hacts, hstps, hcnt⟩ := scheduleAll_msgs env now lid0 inp.senderName
      inp.senderEmail (campaign_schedules inp now) st3 hactiveAll3 hfutAll
    refine ⟨?_, ?_, ?_⟩
    · show (scheduleAll env now lid0 inp.senderName inp.senderEmail st3
        (campaign_schedules inp now)).actions = _
      rw [hacts, hEactions, hactions0]
      simp [campaign_schedules]
    · show (scheduleAll env now lid0 inp.senderName inp.senderEmail st3
        (campaign_schedules inp now)).steps = _
      rw [hstps, hEsteps, hsteps0]
      simp [campaign_schedules]
    · show countCreate (scheduleAll env now lid0 inp.senderName inp.senderEmail st3
        (campaign_schedules inp now)).trace = 3
      rw [hcnt, hEcnt, hcnt0]
      simp [campaign_schedules]

/-- C4 (amended): when the import succeeds, the three templates are active,
the three dates are in the future and exactly one of the three
campaign-creation calls fails, the other two are still attempted (all three
creation POSTs are issued) and each outcome message is recorded; the action
log then has exactly FOUR entries: the import message followed by the three
campaign outcomes. -/
theorem c4_one_failure_others_attempted (env : Env) (inp : WorkflowInput) (now : Int)
    (lid : Nat)
    (hcl : env.createListResp = Except.ok lid)
    (him : env.importResp = Except.ok ())
    (hta : env.active0 inp.tuesdayTemplate = true)
    (hfa : env.active0 inp.fridayTemplate = true)
    (hpa : env.active0 inp.postEventTemplate = true)
    (htd : now < nextTuesday now)
    (hfd : now < nextFriday now)
    (hpd : now < postEventSlot inp.eventEndDate)
    (hone : List.countP (fun n => createFails env n)
      ["Tuesday Invitation", "Friday Reminder", "Post-Event Survey"] = 1) :
    (execute_workflow env inp now).1.actionsTaken
      = ["Created list \x27" ++ inp.listName ++ "\x27 and imported contacts",
         schedMessage env "Tuesday Invitation", schedMessage env "Friday Reminder",
         schedMessage env "Post-Event Survey"] ∧
    (execute_workflow env inp now).1.actionsTaken.length = 4 ∧
    countCreate (execute_workflow env inp now).2.trace = 3 ∧
    ∃ n, n ∈ (["Tuesday Invitation", "Friday Reminder", "Post-Event Survey"] : List String) ∧
      createFails env n = true ∧
      schedMessage env n = "Failed to schedule campaign \x27" ++ n ++ "\x27" ∧
      ∀ m ∈ (["Tuesday Invitation", "Friday Reminder", "Post-Event Survey"] : List String),
        m ≠ n → schedMessage env m = "Campaign \x27" ++ m ++ "\x27 scheduled successfully" := by
  obtain ⟨ha, hs, hc⟩ := workflow_ok_run env inp now lid hcl him hta hfa hpa htd hfd hpd
  refine ⟨ha, by rw [ha]; rfl, hc, ?_⟩
  cases hT : createFails env "Tuesday Invitation" <;>
    cases hF : createFails env "Friday Reminder" <;>
      cases hP : createFails env "Post-Event Survey" <;>
        simp [hT, hF, hP, List.countP_cons] at hone
  · refine ⟨"Post-Event Survey", by simp, hP, by simp [schedMessage, hP], ?_⟩
    intro m hm hne
    simp at hm
    rcases hm with rfl | rfl | rfl
    · simp [schedMessage, hT]
    · simp [schedMessage, hF]
    · exact absurd rfl hne
  · refine ⟨"Friday Reminder", by simp, hF, by simp [schedMessage, hF], ?_⟩
    intro m hm hne
    simp at hm
    rcases hm with rfl | rfl | rfl
    · simp [schedMessage, hT]
    · exact absurd rfl hne
    · simp [schedMessage, hP]
  · refine ⟨"Tuesday Invitation", by simp, hT, by simp [schedMessage, hT], ?_⟩
    intro m hm hne
    simp at hm
    rcases hm with rfl | rfl | rfl
    · exact absurd rfl hne
    · simp [schedMessage, hF]
    · simp [schedMessage, hP]

/-- C4 (counterexample): in the concrete run where exactly the Friday
creation POST fails, the action log has FOUR entries (import message plus
three outcomes), refuting the claim's "exactly three entries". -/
theorem c4_counterexample :
    List.countP (fun n => createFails envOneFailW n)
      ["Tuesday Invitation", "Friday Reminder", "Post-Event Survey"] = 1 ∧
    (execute_workflow envOneFailW inpW nowW).1.actionsTaken.length = 4 ∧
    ¬ ((execute_workflow envOneFailW inpW nowW).1.actionsTaken.length = 3) := by decide

/-- C4 witness: the amended statement applied to the run where exactly the
Friday creation POST fails. -/
theorem c4_witness :
    (envOneFailW.createListResp = Except.ok 42 ∧
     envOneFailW.importResp = Except.ok () ∧
     envOneFailW.active0 inpW.tuesdayTemplate = true ∧
     envOneFailW.active0 inpW.fridayTemplate = true ∧
     envOneFailW.active0 inpW.postEventTemplate = true ∧
     nowW < nextTuesday nowW ∧ nowW < nextFriday nowW ∧
     nowW < postEventSlot inpW.eventEndDate ∧
     List.countP (fun n => createFails envOneFailW n)
       ["Tuesday Invitation", "Friday Reminder", "Post-Event Survey"] = 1) ∧
    ((execute_workflow envOneFailW inpW nowW).1.actionsTaken
      = ["Created list \x27" ++ inpW.listName ++ "\x27 and imported contacts",
         schedMessage envOneFailW "Tuesday Invitation",
         schedMessage envOneFailW "Friday Reminder",
         schedMessage envOneFailW "Post-Event Survey"] ∧
     (execute_workflow envOneFailW inpW nowW).1.actionsTaken.length = 4 ∧
     countCreate (execute_workflow envOneFailW inpW nowW).2.trace = 3 ∧
     ∃ n, n ∈ (["Tuesday Invitation", "Friday Reminder", "Post-Event Survey"] : List String) ∧
       createFails envOneFailW n = true ∧
       schedMessage envOneFailW n = "Failed to schedule campaign \x27" ++ n ++ "\x27" ∧
       ∀ m ∈ (["Tuesday Invitation", "Friday Reminder", "Post-Event Survey"] : List String),
         m ≠ n → schedMessage envOneFailW m
           = "Campaign \x27" ++ m ++ "\x27 scheduled successfully") :=
  ⟨⟨rfl, rfl, rfl, rfl, rfl, by decide, by decide, by decide, by decide⟩,
   c4_one_failure_others_attempted envOneFailW inpW nowW 42 rfl rfl rfl rfl rfl
     (by decide) (by decide) (by decide) (by decide)⟩

/-- A pre-flight call is never a campaign-creation POST. -/
theorem pre_not_create (c : Call) (h : c.isPre = true) : c.isCreateCampaign = false := by
  cases c <;> simp_all [Call.isPre, Call.isCreateCampaign]

/-- A false existence check is a pre-flight call. -/
theorem falseCheck_imp_pre (u : Nat) (c : Call)
    (h : Call.isFalseCheckFor u c = true) : c.isPre = true := by
  cases c <;> simp_all [Call.isFalseCheckFor, Call.isPre]

/-- An activation PUT is a pre-flight call. -/
theorem activateFor_imp_pre (u : Nat) (c : Call)
    (h : Call.isActivateFor u c = true) : c.isPre = true := by
  cases c <;> simp_all [Call.isActivateFor, Call.isPre]

/-- A call that is not an activation matches no per-template activation
predicate. -/
theorem notActivate_noFor (u : Nat) (c : Call)
    (h : c.isActivate = false) : Call.isActivateFor u c = false := by
  cases c <;> simp_all [Call.isActivate, Call.isActivateFor]

/-- A predicate false on every element counts zero. -/
theorem countP_zero_of_all_false (p : Call → Bool) (l : List Call)
    (h : ∀ c ∈ l, p c = false) : l.countP p = 0 := by
  rw [List.countP_eq_zero]
  intro a ha
  simp [h a ha]

/-- In a trace of non-pre-flight calls there is no false check, no
activation, and no activation PUT at all. -/
theorem all_false_of_not_pre (l : List Call) (h : ∀ c ∈ l, c.isPre = false) :
    (∀ u, l.countP (Call.isFalseCheckFor u) = 0) ∧
    (∀ u, l.countP (Call.isActivateFor u) = 0) ∧
    (∀ t, Call.activateTemplate t ∉ l) := by
  refine ⟨?_, ?_, ?_⟩
  · intro u
    apply countP_zero_of_all_false
    intro c hc
    cases hp : Call.isFalseCheckFor u c
    · rfl
    · have h2 := falseCheck_imp_pre u c hp
      rw [h c hc] at h2
      simp at h2
  · intro u
    apply countP_zero_of_all_false
    intro c hc
    cases hp : Call.isActivateFor u c
    · rfl
    · have h2 := activateFor_imp_pre u c hp
      rw [h c hc] at h2
      simp at h2
  · intro t hmem
    have h2 := h _ hmem
    simp [Call.isPre] at h2

/-- On an import failure the final trace is the post-import trace. -/
theorem import_fail_run_trace (env : Env) (inp : WorkflowInput) (now : Int)
    (h : importSucceeds env = false) :
    (execute_workflow env inp now).2.trace = (stAfterImport env inp).trace := by
  have hf := import_fail_result env (initialSt env) inp.listName h
  unfold execute_workflow
  rw [tryWorkflow_init_unfold]
  have hg : getListId (import_contacts env (initialSt env) inp.listName).1
      = Except.error "\x27list_id\x27" := by
    unfold getListId
    rw [hf.2]
  simp [hg]

/-- The post-import trace has only import-stage requests. -/
theorem stAfterImport_trace_props (env : Env) (inp : WorkflowInput) :
    ∀ c ∈ (stAfterImport env inp).trace, c.isPre = false ∧ c.isCreateCampaign = false := by
  obtain ⟨hact, hsteps, hactions, ext, hextr, hextp⟩ :=
    import_st_spec env (initialSt env) inp.listName
  intro c hc
  have htr : (stAfterImport env inp).trace = ext := by
    simp only [stAfterImport]
    rw [hextr]
    simp [initialSt]
  rw [htr] at hc
  exact hextp c hc

/-- C3: in every workflow run, (i) every false template-existence check is
paired with exactly one activation PUT for that template (the per-template
counts of false checks and activations in the trace are equal), (ii) every
activation PUT happens before every campaign-creation POST (the trace
splits into a creation-free prefix and an activation-free suffix), and
(iii) if an activation PUT for a template whose activation the provider
rejects appears in the trace, the workflow ends in a failure result naming
a campaign that uses that template, with zero campaign-creation POSTs. -/
theorem c3_preflight_activation (env : Env) (inp : WorkflowInput) (now : Int) :
    (∀ u, ((execute_workflow env inp now).2.trace).countP (Call.isFalseCheckFor u)
        = ((execute_workflow env inp now).2.trace).countP (Call.isActivateFor u)) ∧
    (∃ l1 l2, (execute_workflow env inp now).2.trace = l1 ++ l2 ∧
      (∀ c ∈ l1, c.isCreateCampaign = false) ∧
      (∀ c ∈ l2, c.isActivate = false)) ∧
    (∀ t err, Call.activateTemplate t ∈ (execute_workflow env inp now).2.trace →
      env.activateResp t = Except.error err →
      countCreate (execute_workflow env inp now).2.trace = 0 ∧
      ∃ nm d, (nm, t, d) ∈ campaign_schedules inp now ∧
        (execute_workflow env inp now).1.result
          = "Workflow failed: " ++ ("Failed to activate template for " ++ nm ++ ": "
              ++ ("Failed to activate template ID " ++ toString t))) := by
  cases h1 : importSucceeds env
  case false =>
    have htr := import_fail_run_trace env inp now h1
    have hprops := stAfterImport_trace_props env inp
    obtain ⟨hIF, hIA, hInoAct⟩ :=
      all_false_of_not_pre (stAfterImport env inp).trace (fun c hc => (hprops c hc).1)
    rw [htr]
    refine ⟨?_, ?_, ?_⟩
    · intro u
      rw [hIF u, hIA u]
    · exact ⟨(stAfterImport env inp).trace, [], by simp,
        fun c hc => (hprops c hc).2, by simp⟩
    · intro t err hmem _
      exact absurd hmem (hInoAct t)
  case true =>
    obtain ⟨lid0, hcl0, hres, _⟩ := import_ok_result env (initialSt env) inp.listName h1
    have hprops := stAfterImport_trace_props env inp
    obtain ⟨hIF, hIA, hInoAct⟩ :=
      all_false_of_not_pre (stAfterImport env inp).trace (fun c hc => (hprops c hc).1)
    have hInoCreate : ∀ c ∈ (stAfterImport env inp).trace, c.isCreateCampaign = false :=
      fun c hc => (hprops c hc).2
    obtain ⟨ext, hEtr, hEsteps, hEactions, hEpre, hEcnt, hEmono⟩ :=
      ensure_spec env (campaign_schedules inp now) (stAfterImport env inp)
    unfold execute_workflow
    rw [tryWorkflow_init_unfold]
    simp only [hres, getListId]
    rcases hE : ensureTemplatesActive env (stAfterImport env inp)
        (campaign_schedules inp now) with ⟨er | u, st3⟩
    · rw [hE] at hEtr
      simp at hEtr
      refine ⟨?_, ?_, ?_⟩
      · intro u'
        show (st3.trace).countP (Call.isFalseCheckFor u')
          = (st3.trace).countP (Call.isActivateFor u')
        rw [hEtr, List.countP_append, List.countP_append, hIF u', hIA u', hEcnt u']
      · refine ⟨(stAfterImport env inp).trace ++ ext, [], by simpa using hEtr, ?_, by simp⟩
        intro c hc
        rcases List.mem_append.mp hc with hc | hc
        · exact hInoCreate c hc
        · exact pre_not_create c (hEpre c hc)
      · intro t err hmem hresp
        have hmem' : Call.activateTemplate t ∈ st3.trace := hmem
        rw [hEtr] at hmem'
        rcases List.mem_append.mp hmem' with hc | hc
        · exact absurd hc (hInoAct t)
        · have hmem2 : Call.activateTemplate t
              ∈ (ensureTemplatesActive env (stAfterImport env inp)
                  (campaign_schedules inp now)).2.trace := by
            rw [hE]
            show Call.activateTemplate t ∈ st3.trace
            rw [hEtr]
            exact List.mem_append.mpr (Or.inr hc)
          obtain ⟨nm, d, hmOf, habort⟩ := ensure_abort env (campaign_schedules inp now)
            (stAfterImport env inp) t err hresp hmem2 (hInoAct t)
          rw [hE] at habort
          simp at habort
          refine ⟨?_, nm, d, hmOf, ?_⟩
          · show countCreate st3.trace = 0
            unfold countCreate
            rw [hEtr, List.countP_append,
              countP_zero_of_all_false _ _ hInoCreate,
              countP_zero_of_all_false _ _ (fun c hc => pre_not_create c (hEpre c hc))]
          · show "Workflow failed: " ++ er = _
            rw [habort]
    · have hEok : (ensureTemplatesActive env (stAfterImport env inp)
          (campaign_schedules inp now)).1 = Except.ok () := by
        rw [hE]
      have hact3 : ∀ nm tid d, (nm, tid, d) ∈ campaign_schedules inp now →
          st3.active tid = true := by
        intro nm tid d hm
        have hx := ensure_ok_active env (campaign_schedules inp now)
          (stAfterImport env inp) hEok nm tid d hm
        rw [hE] at hx
        exact hx
      obtain ⟨ext2, hStr, hSprops, hSact⟩ := scheduleAll_spec env now lid0
        inp.senderName inp.senderEmail (campaign_schedules inp now) st3 hact3
      rw [hE] at hEtr
      simp at hEtr
      refine ⟨?_, ?_, ?_⟩
      · intro u'
        show ((scheduleAll env now lid0 inp.senderName inp.senderEmail st3
            (campaign_schedules inp now)).trace).countP (Call.isFalseCheckFor u')
          = ((scheduleAll env now lid0 inp.senderName inp.senderEmail st3
            (campaign_schedules inp now)).trace).countP (Call.isActivateFor u')
        rw [hStr, hEtr, List.countP_append, List.countP_append, List.countP_append,
          List.countP_append, hIF u', hIA u', hEcnt u',
          countP_zero_of_all_false _ _ (fun c hc => (hSprops c hc).2 u'),
          countP_zero_of_all_false _ _ (fun c hc => notActivate_noFor u' c (hSprops c hc).1)]
      · refine ⟨(stAfterImport env inp).trace ++ ext, ext2, ?_, ?_, ?_⟩
        · show (scheduleAll env now lid0 inp.senderName inp.senderEmail st3
            (campaign_schedules inp now)).trace = _
          rw [hStr, hEtr]
        · intro c hc
          rcases List.mem_append.mp hc with hc | hc
          · exact hInoCreate c hc
          · exact pre_not_create c (hEpre c hc)
        · intro c hc
          exact (hSprops c hc).1
      · intro t err hmem hresp
        have hmem' : Call.activateTemplate t ∈ (scheduleAll env now lid0
            inp.senderName inp.senderEmail st3 (campaign_schedules inp now)).trace := hmem
        rw [hStr, hEtr] at hmem'
        rcases List.mem_append.mp hmem' with hc | hc2
        · rcases List.mem_append.mp hc with hc | hc
          · exact absurd hc (hInoAct t)
          · exfalso
            have hmem2 : Call.activateTemplate t
                ∈ (ensureTemplatesActive env (stAfterImport env inp)
                    (campaign_schedules inp now)).2.trace := by
              rw [hE]
              show Call.activateTemplate t ∈ st3.trace
              rw [hEtr]
              exact List.mem_append.mpr (Or.inr hc)
            obtain ⟨nm, d, hmOf, habort⟩ := ensure_abort env (campaign_schedules inp now)
              (stAfterImport env inp) t err hresp hmem2 (hInoAct t)
            rw [hEok] at habort
            exact Except.noConfusion habort
        · have := (hSprops _ hc2).1
          simp [Call.isActivate] at this

/-- C3 witness: in the run where template 12 is inactive and its activation
PUT is rejected, the trace contains the activation PUT for template 12, the
workflow schedules nothing and fails naming the campaign that uses it. -/
theorem c3_witness :
    (Call.activateTemplate 12 ∈ (execute_workflow envActFailW inpW nowW).2.trace ∧
     envActFailW.activateResp 12 = Except.error "forbidden") ∧
    (countCreate (execute_workflow envActFailW inpW nowW).2.trace = 0 ∧
     ∃ nm d, (nm, 12, d) ∈ campaign_schedules inpW nowW ∧
       (execute_workflow envActFailW inpW nowW).1.result
         = "Workflow failed: " ++ ("Failed to activate template for " ++ nm ++ ": "
             ++ ("Failed to activate template ID " ++ toString 12))) :=
  ⟨⟨by decide, rfl⟩,
   (c3_preflight_activation envActFailW inpW nowW).2.2 12 "forbidden" (by decide) rfl⟩
